import Mathlib

/-!
Shallow embedding of the cdn-worker edge service (Python sources under
`src/src/python/`): the signature matcher (`ai_detection.py`), the log
forwarder (`logging.py`), the dispatcher (`main.py`), the heuristic
detection module (`extra/heuristic_detection.py`, whose functions are
unimplemented stubs returning `False` in the source) and the metrics
collector (`extra/metrics.py`).  External I/O (the origin fetch and the
log/analytics POST) is modelled by passing its outcome in as an explicit
`Except` value; machine strings are Lean `String`s and Python dicts are
association lists.
-/

/-- Boolean prefix test on character lists (used to embed Python's `in`
substring operator). -/
def charsPref : List Char → List Char → Bool
  | [], _ => true
  | _ :: _, [] => false
  | a :: as, b :: bs => a == b && charsPref as bs

/-- Helper scanning every suffix of the haystack for the needle. -/
def charsHasInfixAux (needle : List Char) : List Char → Bool
  | [] => charsPref needle []
  | c :: rest => charsPref needle (c :: rest) || charsHasInfixAux needle rest

/-- Embedding of Python's substring containment `needle in hay` on strings. -/
def strContains (hay needle : String) : Bool :=
  charsHasInfixAux needle.data hay.data

/-- Embedding of Python's `str.rstrip('/')`: drop trailing slash characters. -/
def rstripSlash (s : String) : String :=
  String.mk ((s.data.reverse.dropWhile (fun c => c == '/')).reverse)

/-- Embedding of Python's `dict.get(key, default)` over an association list. -/
def headerGet (hs : List (String × String)) (k d : String) : String :=
  match hs.lookup k with
  | some v => v
  | none => d

/-- Embedding of `dict.get(key, 0)` for counter dictionaries. -/
def dictGet [BEq κ] (m : List (κ × Nat)) (k : κ) : Nat :=
  match m.lookup k with
  | some v => v
  | none => 0

/-- Embedding of `dict[key] = value` for counter dictionaries: overwrite the
existing binding, or append a new one. -/
def dictSet [BEq κ] (m : List (κ × Nat)) (k : κ) (v : Nat) : List (κ × Nat) :=
  if m.any (fun p => p.1 == k) then
    m.map (fun p => if p.1 == k then (k, v) else p)
  else
    m ++ [(k, v)]

/-- The curated crawler token list `AI_CRAWLERS` of `ai_detection.py`
(`extra/metrics.py` repeats the same eleven tokens). -/
def AI_CRAWLERS : List String :=
  ["GPTBot", "OAI-SearchBot", "ChatGPT-User", "anthropic-ai", "ClaudeBot",
   "PerplexityBot", "Google-Extended", "Bytespider", "Amazonbot",
   "Applebot-Extended", "CCBot"]

/-- Embedding of `ai_detection.is_ai_crawler`: true when any known crawler
token occurs as a substring of the user agent. -/
def is_ai_crawler (user_agent : String) : Bool :=
  AI_CRAWLERS.any (fun crawler => strContains user_agent crawler)

/-- The name-returning signature matcher: the first crawler token occurring in
the user agent, or `none`.  This is the `for crawler in AI_CRAWLERS: if
crawler in user_agent: ...; break` loop of `metrics.py` (and the spec's
Signature Matcher contract) as a function. -/
def matchCrawler (user_agent : String) : Option String :=
  AI_CRAWLERS.find? (fun crawler => strContains user_agent crawler)

example : is_ai_crawler "GPTBot/1.0" = true := by decide
example : is_ai_crawler "gptbot/1.0" = false := by decide
example : matchCrawler "xCCBot GPTBot" = some "GPTBot" := by decide

/-- The `LogEntry` dataclass of `logging.py` (repeated verbatim in
`extra/metrics.py`). -/
structure LogEntry where
  timestamp : String
  method : String
  path : String
  user_agent : String
  is_ai_crawler : Bool
  status_code : Nat
  remote_addr : String
  referer : String
deriving DecidableEq

/-- Embedding of `logging.forward_log`: the POST to the log service is
modelled by `post`, returning either a status code or a raised exception.
The `try`/`except` of the source swallows every failure (a non-2xx status
only triggers local prints), so both arms return `Except.ok ()`. -/
def forward_log (post : LogEntry → Except String Nat) (log_entry : LogEntry) :
    Except String Unit :=
  match post log_entry with
  | Except.ok _status => Except.ok ()
  | Except.error _e => Except.ok ()

/-- The `HeuristicDetectionConfig` dataclass of `extra/heuristic_detection.py`. -/
structure HeuristicDetectionConfig where
  max_requests_per_minute : Nat
  suspicious_user_agent_words : List String
  required_headers : List String
  min_accept_language_length : Nat
  enable_robots_check : Bool
  enable_asset_request_check : Bool
deriving DecidableEq

/-- Embedding of `get_default_heuristic_config` together with the
`__post_init__` defaults of `HeuristicDetectionConfig`. -/
def get_default_heuristic_config : HeuristicDetectionConfig :=
  { max_requests_per_minute := 60
    suspicious_user_agent_words :=
      ["bot", "crawler", "scraper", "spider", "fetch",
       "harvest", "extract", "scan", "monitor", "check"]
    required_headers := ["accept", "accept-language", "accept-encoding"]
    min_accept_language_length := 5
    enable_robots_check := true
    enable_asset_request_check := true }

/-- The `RequestContext` dataclass of `extra/heuristic_detection.py`
(`timestamp` is a datetime in the source, modelled as a rational number of
seconds; `headers` is an association list). -/
structure RequestContext where
  user_agent : String
  headers : List (String × String)
  path : String
  ip : String
  timestamp : ℚ
  is_html_request : Bool
  requested_assets : List String

/-- The `IPRequestTracker` class of `extra/heuristic_detection.py`.  Its
`__init__` body is `pass` (a TODO stub), so the tracker carries no state at
all: the structure has no fields. -/
structure IPRequestTracker

/-- Embedding of `create_ip_request_tracker` (returns the stateless stub). -/
def create_ip_request_tracker : IPRequestTracker :=
  IPRequestTracker.mk

/-- Embedding of `is_ai_crawler_by_heuristics`: the source body is a TODO
stub that returns `False` unconditionally. -/
def is_ai_crawler_by_heuristics (_ctx : RequestContext)
    (_config : HeuristicDetectionConfig) : Bool :=
  false

/-- Embedding of `has_suspicious_user_agent`: TODO stub returning `False`. -/
def has_suspicious_user_agent (_user_agent : String)
    (_suspicious_words : List String) : Bool :=
  false

/-- Embedding of `has_suspicious_headers`: TODO stub returning `False`. -/
def has_suspicious_headers (_headers : List (String × String))
    (_required_headers : List String) : Bool :=
  false

/-- Embedding of `has_high_request_rate`: TODO stub returning `False`. -/
def has_high_request_rate (_ip : String) (_tracker : IPRequestTracker)
    (_max_per_minute : Nat) : Bool :=
  false

/-- The classification verdict of the spec's Classification Engine. -/
inductive Verdict where
  | AI_CRAWLER
  | LIKELY_HUMAN
deriving DecidableEq

/-- A verdict together with its confidence score in `[0, 1]`. -/
structure Classification where
  verdict : Verdict
  confidence : ℚ
deriving DecidableEq

/-- Modelled from the spec: the Classification Engine (spec section 4.6).  The
source's dispatcher (`main.py`) uses only the boolean `is_ai_crawler`
short-circuit and never computes a confidence, so the verdict/confidence
wrapper follows the spec's words: a signature hit is authoritative with
confidence 1.0; otherwise the heuristic stage — the source's
`is_ai_crawler_by_heuristics`, which returns `False` — supplies the score
compared against the 0.5 decision threshold. -/
def classify (ctx : RequestContext) (config : HeuristicDetectionConfig) :
    Classification :=
  if is_ai_crawler ctx.user_agent then
    { verdict := Verdict.AI_CRAWLER, confidence := 1 }
  else
    let score : ℚ := if is_ai_crawler_by_heuristics ctx config then 1 else 0
    if 1 / 2 < score then
      { verdict := Verdict.AI_CRAWLER, confidence := score }
    else
      { verdict := Verdict.LIKELY_HUMAN, confidence := score }

/-- The hypothesis "complete, well-formed, browser-like header set" of the
spec's LIKELY_HUMAN property, stated over the configured required headers:
every required header is present and the `accept-language` value reaches the
configured minimum length. -/
def browserLikeHeaders (headers : List (String × String))
    (config : HeuristicDetectionConfig) : Bool :=
  config.required_headers.all (fun h => (headers.lookup h).isSome) &&
    decide (config.min_accept_language_length ≤
      (((headers.lookup "accept-language").getD "").length))

example : browserLikeHeaders
    [("accept", "text/html"), ("accept-language", "en-US,en;q=0.9"),
     ("accept-encoding", "gzip, deflate")] get_default_heuristic_config = true := by
  decide

/-- The inbound request as `handle_request` reads it: method, full URL, path,
headers, the optional `request.client.host`, and the optional body. -/
structure Request where
  method : String
  url : String
  path : String
  headers : List (String × String)
  client : Option String
  body : Option String

/-- A response read back from the origin: status, headers and body text. -/
structure OriginResponse where
  status : Nat
  headers : List (String × String)
  body : String
deriving DecidableEq

/-- The dictionary `handle_request` returns: `statusCode`, `headers`, `body`. -/
structure WorkerResponse where
  statusCode : Nat
  headers : List (String × String)
  body : String
deriving DecidableEq

/-- Observable side effects of one `handle_request` run: an attempted origin
fetch, or an attempted log forward (attempted regardless of delivery
outcome). -/
inductive Event where
  | originFetch (method url : String) (headers : List (String × String))
      (body : Option String)
  | logAttempt (entry : LogEntry)
deriving DecidableEq

/-- Whether an event is an origin fetch (used to count fetch attempts). -/
def Event.isOriginFetch : Event → Bool
  | Event.originFetch _ _ _ _ => true
  | Event.logAttempt _ => false

/-- The `ORIGIN_URL` constant of `main.py`. -/
def ORIGIN_URL : String := "http://www.mysite.com/"

/-- Embedding of `f"{ORIGIN_URL.rstrip('/')}{path}"`. -/
def originUrl (path : String) : String :=
  rstripSlash ORIGIN_URL ++ path

/-- The triple-quoted AI-optimized response body of `main.py`. -/
def aiResponseBody : String :=
  "\n            <html>\n                <head><title>AI-Ready Content</title></head>\n                <body>This is content optimized for AI crawlers.</body>\n            </html>\n            "

/-- The synthetic response served to AI crawlers (status 200, HTML). -/
def syntheticResponse : WorkerResponse :=
  { statusCode := 200
    headers := [("Content-Type", "text/html; charset=utf-8")]
    body := aiResponseBody }

/-- The 502 response of the proxy-failure branch of `handle_request`. -/
def failResponse : WorkerResponse :=
  { statusCode := 502
    headers := [("Content-Type", "text/plain")]
    body := "Failed to fetch from origin" }

/-- The 500 response of the outer exception handler of `handle_request`. -/
def internalErrorResponse : WorkerResponse :=
  { statusCode := 500
    headers := [("Content-Type", "text/plain")]
    body := "Internal Server Error" }

/-- The log entry `handle_request` builds before dispatching: user agent and
referer from the headers, remote address from `request.client.host` (or
`"unknown"`), status code provisionally 200. -/
def baseEntry (now : String) (req : Request) : LogEntry :=
  { timestamp := now
    method := req.method
    path := req.path
    user_agent := headerGet req.headers "User-Agent" ""
    is_ai_crawler := is_ai_crawler (headerGet req.headers "User-Agent" "")
    status_code := 200
    remote_addr := req.client.getD "unknown"
    referer := headerGet req.headers "Referer" "" }

/-- The origin-fetch event `handle_request` emits in the proxy branch. -/
def fetchEvent (req : Request) : Event :=
  Event.originFetch req.method (originUrl req.path) req.headers req.body

/-- The outer `except` block of `handle_request`: status 500, one further log
attempt, the generic plaintext body.  A failure raised by that final
`forward_log` would propagate out of the handler, hence the `Except.error`
arm. -/
def internalErrorPath (post : LogEntry → Except String Nat) (base : LogEntry)
    (tr : List Event) : Except String (WorkerResponse × List Event) :=
  let entry := { base with status_code := 500 }
  match forward_log post entry with
  | Except.ok _ => Except.ok (internalErrorResponse, tr ++ [Event.logAttempt entry])
  | Except.error e => Except.error e

/-- The inner `except` block of `handle_request` (any proxy failure): status
502, a log attempt, the generic plaintext body.  A failure raised by this
`forward_log` would be caught by the outer handler. -/
def originFailPath (post : LogEntry → Except String Nat) (base : LogEntry)
    (tr : List Event) : Except String (WorkerResponse × List Event) :=
  let entry := { base with status_code := 502 }
  match forward_log post entry with
  | Except.ok _ => Except.ok (failResponse, tr ++ [Event.logAttempt entry])
  | Except.error _ => internalErrorPath post base (tr ++ [Event.logAttempt entry])

/-- Embedding of `main.handle_request`.  The origin fetch outcome is passed in
as `origin` (success with a response, or a raised exception/timeout) and the
log-service POST as `post`.  The result carries the returned response
dictionary together with the trace of attempted side effects; the
`Except.error` outcome corresponds to an exception escaping the handler. -/
def handle_request (now : String) (req : Request)
    (origin : Except String OriginResponse)
    (post : LogEntry → Except String Nat) :
    Except String (WorkerResponse × List Event) :=
  let base := baseEntry now req
  if is_ai_crawler base.user_agent then
    match forward_log post base with
    | Except.ok _ => Except.ok (syntheticResponse, [Event.logAttempt base])
    | Except.error _ => internalErrorPath post base [Event.logAttempt base]
  else
    match origin with
    | Except.ok r =>
        let entry := { base with status_code := r.status }
        match forward_log post entry with
        | Except.ok _ =>
            Except.ok ({ statusCode := r.status, headers := r.headers, body := r.body },
              [fetchEvent req, Event.logAttempt entry])
        | Except.error _ =>
            originFailPath post base [fetchEvent req, Event.logAttempt entry]
    | Except.error _ => originFailPath post base [fetchEvent req]

/-- The `Metrics` dataclass of `extra/metrics.py` (counter dictionaries as
association lists, response-time average as a rational). -/
structure Metrics where
  total_requests : Nat
  ai_crawler_requests : Nat
  proxy_requests : Nat
  error_requests : Nat
  start_time : String
  last_request_time : String
  status_code_counts : List (Nat × Nat)
  user_agent_counts : List (String × Nat)
  path_counts : List (String × Nat)
  ai_crawler_types : List (String × Nat)
  average_response_time : ℚ
  requests_by_hour : List (String × Nat)

/-- The `MetricsCollector` class state: the metrics plus the raw
response-time list. -/
structure MetricsCollector where
  metrics : Metrics
  response_times : List ℚ

/-- Embedding of `MetricsCollector.__init__`: zeroed counters, empty
dictionaries, the given start time. -/
def initCollector (start : String) : MetricsCollector :=
  { metrics :=
      { total_requests := 0
        ai_crawler_requests := 0
        proxy_requests := 0
        error_requests := 0
        start_time := start
        last_request_time := ""
        status_code_counts := []
        user_agent_counts := []
        path_counts := []
        ai_crawler_types := []
        average_response_time := 0
        requests_by_hour := [] }
    response_times := [] }

/-- Embedding of `MetricsCollector.record_request`.  `hourKey` stands for the
`datetime.fromisoformat(...).strftime("%Y-%m-%d-%H")` hour-bucket computation
(a Python standard-library call, passed in as a function).  The
first-matching-crawler loop of the AI branch is `matchCrawler`. -/
def record_request (hourKey : String → String) (c : MetricsCollector)
    (log_entry : LogEntry) (response_time : ℚ) : MetricsCollector :=
  let m := c.metrics
  let m := { m with
    total_requests := m.total_requests + 1
    last_request_time := log_entry.timestamp }
  let m := { m with
    status_code_counts := dictSet m.status_code_counts log_entry.status_code
      (dictGet m.status_code_counts log_entry.status_code + 1) }
  let m := { m with
    path_counts := dictSet m.path_counts log_entry.path
      (dictGet m.path_counts log_entry.path + 1) }
  let hk := hourKey log_entry.timestamp
  let m := { m with
    requests_by_hour := dictSet m.requests_by_hour hk
      (dictGet m.requests_by_hour hk + 1) }
  let ua := if 100 < log_entry.user_agent.length then
      log_entry.user_agent.take 100 else log_entry.user_agent
  let m := { m with
    user_agent_counts := dictSet m.user_agent_counts ua
      (dictGet m.user_agent_counts ua + 1) }
  let m :=
    if log_entry.is_ai_crawler then
      { m with
        ai_crawler_requests := m.ai_crawler_requests + 1
        ai_crawler_types :=
          match matchCrawler log_entry.user_agent with
          | some crawler =>
              dictSet m.ai_crawler_types crawler
                (dictGet m.ai_crawler_types crawler + 1)
          | none => m.ai_crawler_types }
    else
      { m with proxy_requests := m.proxy_requests + 1 }
  let m :=
    if 400 ≤ log_entry.status_code then
      { m with error_requests := m.error_requests + 1 }
    else m
  let rts := c.response_times ++ [response_time]
  let rts := if 1000 < rts.length then rts.drop 1 else rts
  let m :=
    if rts.length ≠ 0 then
      { m with average_response_time := rts.sum / (rts.length : ℚ) }
    else m
  { metrics := m, response_times := rts }

/-- Folding `record_request` over a sequence of recorded requests. -/
def runRecords (hourKey : String → String) (c : MetricsCollector)
    (l : List (LogEntry × ℚ)) : MetricsCollector :=
  l.foldl (fun acc p => record_request hourKey acc p.1 p.2) c

/-- A concrete timestamp used by the witness scenarios. -/
def demoNow : String := "2024-01-01T00:00:00+00:00"

/-- A concrete log-service POST outcome (always delivered with status 200). -/
def demoPost : LogEntry → Except String Nat :=
  fun _ => Except.ok 200

/-- A concrete AI-crawler request (user agent `GPTBot/1.0`). -/
def gptbotReq : Request :=
  { method := "GET"
    url := "http://cdn.example/article"
    path := "/article"
    headers := [("User-Agent", "GPTBot/1.0")]
    client := some "203.0.113.9"
    body := none }

/-- The heuristic-layer context of the `GPTBot/1.0` request. -/
def gptbotCtx : RequestContext :=
  { user_agent := "GPTBot/1.0"
    headers := [("User-Agent", "GPTBot/1.0")]
    path := "/article"
    ip := "203.0.113.9"
    timestamp := 0
    is_html_request := true
    requested_assets := [] }

/-- A concrete browser-like request: Chrome user agent, full header set. -/
def browserReq : Request :=
  { method := "GET"
    url := "http://cdn.example/article"
    path := "/article"
    headers :=
      [("User-Agent",
        "Mozilla/5.0 (X11; Linux x86_64) AppleWebKit/537.36 (KHTML, like Gecko) Chrome/119.0.0.0 Safari/537.36"),
       ("accept", "text/html,application/xhtml+xml"),
       ("accept-language", "en-US,en;q=0.9"),
       ("accept-encoding", "gzip, deflate, br")]
    client := some "198.51.100.20"
    body := none }

/-- The heuristic-layer context of the browser-like request. -/
def browserCtx : RequestContext :=
  { user_agent :=
      "Mozilla/5.0 (X11; Linux x86_64) AppleWebKit/537.36 (KHTML, like Gecko) Chrome/119.0.0.0 Safari/537.36"
    headers := browserReq.headers
    path := "/article"
    ip := "198.51.100.20"
    timestamp := 0
    is_html_request := true
    requested_assets := [] }

/-- A concrete successful origin response. -/
def demoOrigin : OriginResponse :=
  { status := 200
    headers := [("Content-Type", "text/html"), ("X-Origin", "real")]
    body := "origin page body" }

/-- The context of the 61-requests-per-minute scenario: an unlabeled client
(no known crawler token) hammering the same path. -/
def rateScenarioCtx : RequestContext :=
  { user_agent := "python-requests/2.31"
    headers := []
    path := "/article"
    ip := "203.0.113.7"
    timestamp := 0
    is_html_request := true
    requested_assets := [] }

/-- A request whose user agent is `gptbot/1.0`: the token `GPTBot` changed
only in letter case. -/
def lowerBotReq : Request :=
  { method := "GET"
    url := "http://cdn.example/article"
    path := "/article"
    headers := [("User-Agent", "gptbot/1.0")]
    client := some "203.0.113.10"
    body := none }

/-- A header set whose `accept-language` is the degenerate value `*`. -/
def degenerateHeaders : List (String × String) :=
  [("accept", "*/*"), ("accept-language", "*"), ("accept-encoding", "gzip")]

/-- `forward_log` never propagates a failure: both the delivered and the
raised-exception outcome end in `Except.ok ()`. -/
theorem forward_log_ok (post : LogEntry → Except String Nat) (e : LogEntry) :
    forward_log post e = Except.ok () := by
  unfold forward_log
  cases post e <;> rfl

/-- Normal form of `handle_request`: since `forward_log` swallows every
delivery failure, the handler always succeeds, and the result depends only on
the signature check and the origin outcome. -/
theorem handle_request_run (now : String) (req : Request)
    (origin : Except String OriginResponse)
    (post : LogEntry → Except String Nat) :
    handle_request now req origin post =
      (if is_ai_crawler (baseEntry now req).user_agent then
        Except.ok (syntheticResponse, [Event.logAttempt (baseEntry now req)])
      else
        match origin with
        | Except.ok r =>
            Except.ok ({ statusCode := r.status, headers := r.headers, body := r.body },
              [fetchEvent req,
               Event.logAttempt { baseEntry now req with status_code := r.status }])
        | Except.error _ =>
            Except.ok (failResponse,
              [fetchEvent req,
               Event.logAttempt { baseEntry now req with status_code := 502 }])) := by
  unfold handle_request
  by_cases h : is_ai_crawler (baseEntry now req).user_agent
  · simp [h, forward_log_ok]
  · cases origin <;> simp [h, forward_log_ok, originFailPath]

set_option maxRecDepth 4096

/-- `List.find?` returns the head of the filtered list. -/
theorem find_eq_head_filter {α : Type} (p : α → Bool) (l : List α) :
    l.find? p = (l.filter p).head? :=
  (List.filter_head? p l).symm

/-- `List.find?` finds nothing exactly when no element satisfies the
predicate (stated with `List.all` over the negated predicate). -/
theorem find_isNone_eq_all_not {α : Type} (p : α → Bool) (l : List α) :
    (l.find? p).isNone = l.all (fun a => ! p a) := by
  induction l with
  | nil => rfl
  | cons a t ih =>
      by_cases h : p a <;> simp [List.find?_cons, h, ih]

/-- `List.any` agrees with `List.find?` succeeding. -/
theorem find_isSome_eq_any {α : Type} (p : α → Bool) (l : List α) :
    (l.find? p).isSome = l.any p := by
  induction l with
  | nil => rfl
  | cons a t ih =>
      by_cases h : p a <;> simp [List.find?_cons, h, ih]

/-- One `record_request` call increments `total_requests` by exactly one. -/
theorem record_request_total (hk : String → String) (c : MetricsCollector)
    (e : LogEntry) (rt : ℚ) :
    (record_request hk c e rt).metrics.total_requests
      = c.metrics.total_requests + 1 := by
  simp only [record_request]
  repeat' split
  all_goals rfl

/-- One `record_request` call increments exactly one of `ai_crawler_requests`
and `proxy_requests`. -/
theorem record_request_ai_proxy (hk : String → String) (c : MetricsCollector)
    (e : LogEntry) (rt : ℚ) :
    (record_request hk c e rt).metrics.ai_crawler_requests
        + (record_request hk c e rt).metrics.proxy_requests
      = c.metrics.ai_crawler_requests + c.metrics.proxy_requests + 1 := by
  simp only [record_request]
  repeat' split
  all_goals (dsimp only; try omega)

/-- One `record_request` call increments `error_requests` exactly when the
recorded status code is at least 400. -/
theorem record_request_error (hk : String → String) (c : MetricsCollector)
    (e : LogEntry) (rt : ℚ) :
    (record_request hk c e rt).metrics.error_requests
      = c.metrics.error_requests + (if 400 ≤ e.status_code then 1 else 0) := by
  simp only [record_request]
  repeat' split
  all_goals (dsimp only; try omega)

/-- Over any run, `total_requests` grows by the number of recorded entries. -/
theorem runRecords_total (hk : String → String) (l : List (LogEntry × ℚ)) :
    ∀ c : MetricsCollector,
      (runRecords hk c l).metrics.total_requests
        = c.metrics.total_requests + l.length := by
  induction l with
  | nil => intro c; simp [runRecords]
  | cons p t ih =>
      intro c
      simp only [runRecords, List.foldl_cons] at ih ⊢
      rw [ih, record_request_total, List.length_cons]
      omega

/-- Over any run, the AI-crawler and proxy counters together grow by the
number of recorded entries. -/
theorem runRecords_ai_proxy (hk : String → String) (l : List (LogEntry × ℚ)) :
    ∀ c : MetricsCollector,
      (runRecords hk c l).metrics.ai_crawler_requests
          + (runRecords hk c l).metrics.proxy_requests
        = c.metrics.ai_crawler_requests + c.metrics.proxy_requests + l.length := by
  induction l with
  | nil => intro c; simp [runRecords]
  | cons p t ih =>
      intro c
      simp only [runRecords, List.foldl_cons] at ih ⊢
      rw [ih, record_request_ai_proxy, List.length_cons]
      omega

/-- Over any run, `error_requests` grows by the number of recorded entries
whose status code is at least 400. -/
theorem runRecords_error (hk : String → String) (l : List (LogEntry × ℚ)) :
    ∀ c : MetricsCollector,
      (runRecords hk c l).metrics.error_requests
        = c.metrics.error_requests
          + l.countP (fun p => decide (400 ≤ p.1.status_code)) := by
  induction l with
  | nil => intro c; simp [runRecords]
  | cons p t ih =>
      intro c
      simp only [runRecords, List.foldl_cons] at ih ⊢
      rw [ih, record_request_error, List.countP_cons]
      by_cases h : 400 ≤ p.1.status_code
      · simp [h]
        omega
      · simp [h]

/-- A user-agent string containing any known crawler token makes
`is_ai_crawler` return true. -/
theorem is_ai_crawler_of_token (ua : String)
    (h : ∃ c ∈ AI_CRAWLERS, strContains ua c = true) :
    is_ai_crawler ua = true := by
  rcases h with ⟨c, hc, hs⟩
  simp only [is_ai_crawler, List.any_eq_true]
  exact ⟨c, hc, hs⟩

/-- C1: for every user-agent string containing a known crawler token as a
substring, classification returns the AI_CRAWLER verdict with confidence 1.0
regardless of any other signal, and the dispatcher serves the synthetic
AI-optimized response with status 200 (regardless of the origin outcome). -/
theorem C1_signature_fast_path (now : String) (req : Request)
    (origin : Except String OriginResponse) (post : LogEntry → Except String Nat)
    (ctx : RequestContext) (cfg : HeuristicDetectionConfig)
    (hua : ctx.user_agent = (baseEntry now req).user_agent)
    (h : ∃ c ∈ AI_CRAWLERS, strContains ctx.user_agent c = true) :
    classify ctx cfg = { verdict := Verdict.AI_CRAWLER, confidence := 1 } ∧
    handle_request now req origin post
      = Except.ok (syntheticResponse, [Event.logAttempt (baseEntry now req)]) ∧
    syntheticResponse.statusCode = 200 := by
  have hai : is_ai_crawler ctx.user_agent = true := is_ai_crawler_of_token ctx.user_agent h
  have hbase : is_ai_crawler (baseEntry now req).user_agent = true := hua ▸ hai
  refine ⟨?_, ?_, rfl⟩
  · simp [classify, hai]
  · rw [handle_request_run]
    simp [hbase]

/-- Witness for C1 at the concrete input `GPTBot/1.0`, with the origin fetch
failing (the signature path never consults the origin). -/
theorem C1_signature_fast_path_witness :
    classify gptbotCtx get_default_heuristic_config
        = { verdict := Verdict.AI_CRAWLER, confidence := 1 } ∧
    handle_request demoNow gptbotReq (Except.error "origin down") demoPost
      = Except.ok (syntheticResponse, [Event.logAttempt (baseEntry demoNow gptbotReq)]) ∧
    syntheticResponse.statusCode = 200 :=
  C1_signature_fast_path demoNow gptbotReq (Except.error "origin down") demoPost
    gptbotCtx get_default_heuristic_config (by decide)
    ⟨"GPTBot", by decide, by decide⟩

/-- C2: for a request with no crawler signature whose origin fetch fails for
any reason, the dispatcher returns status 502 with a generic plaintext body,
performs exactly one fetch attempt (no retry), and still attempts to emit a
log event carrying status 502. -/
theorem C2_origin_failure (now : String) (req : Request) (err : String)
    (post : LogEntry → Except String Nat)
    (hsig : is_ai_crawler (baseEntry now req).user_agent = false) :
    ∃ tr : List Event,
      handle_request now req (Except.error err) post
          = Except.ok (failResponse, tr) ∧
      failResponse.statusCode = 502 ∧
      failResponse.headers = [("Content-Type", "text/plain")] ∧
      tr.countP (fun e => e.isOriginFetch) = 1 ∧
      ∃ entry : LogEntry, Event.logAttempt entry ∈ tr ∧ entry.status_code = 502 := by
  refine ⟨[fetchEvent req,
           Event.logAttempt { baseEntry now req with status_code := 502 }],
          ?_, rfl, rfl, rfl, ?_⟩
  · rw [handle_request_run]
    simp [hsig]
  · exact ⟨{ baseEntry now req with status_code := 502 }, by simp, rfl⟩

/-- Witness for C2: a browser-like request whose origin fetch times out. -/
theorem C2_origin_failure_witness :
    ∃ tr : List Event,
      handle_request demoNow browserReq (Except.error "timeout") demoPost
          = Except.ok (failResponse, tr) ∧
      failResponse.statusCode = 502 ∧
      failResponse.headers = [("Content-Type", "text/plain")] ∧
      tr.countP (fun e => e.isOriginFetch) = 1 ∧
      ∃ entry : LogEntry, Event.logAttempt entry ∈ tr ∧ entry.status_code = 502 :=
  C2_origin_failure demoNow browserReq "timeout" demoPost (by decide)

/-- C3: a request with a complete, well-formed, browser-like header set and no
crawler signature classifies as LIKELY_HUMAN and is transparently proxied,
relaying the origin's status, headers and body on success. -/
theorem C3_browser_proxied (now : String) (req : Request) (r : OriginResponse)
    (post : LogEntry → Except String Nat) (ctx : RequestContext)
    (cfg : HeuristicDetectionConfig)
    (hua : ctx.user_agent = (baseEntry now req).user_agent)
    (hsig : is_ai_crawler ctx.user_agent = false)
    (_hbrowser : browserLikeHeaders ctx.headers cfg = true) :
    (classify ctx cfg).verdict = Verdict.LIKELY_HUMAN ∧
    handle_request now req (Except.ok r) post
      = Except.ok
          ({ statusCode := r.status, headers := r.headers, body := r.body },
           [fetchEvent req,
            Event.logAttempt { baseEntry now req with status_code := r.status }]) := by
  have hbase : is_ai_crawler (baseEntry now req).user_agent = false := hua ▸ hsig
  constructor
  · simp [classify, hsig, is_ai_crawler_by_heuristics]
    norm_num
  · rw [handle_request_run]
    simp [hbase]

/-- Witness for C3: the Chrome request with a full header set, proxied to a
successful origin. -/
theorem C3_browser_proxied_witness :
    (classify browserCtx get_default_heuristic_config).verdict
        = Verdict.LIKELY_HUMAN ∧
    handle_request demoNow browserReq (Except.ok demoOrigin) demoPost
      = Except.ok
          ({ statusCode := demoOrigin.status, headers := demoOrigin.headers,
             body := demoOrigin.body },
           [fetchEvent browserReq,
            Event.logAttempt
              { baseEntry demoNow browserReq with status_code := demoOrigin.status }]) :=
  C3_browser_proxied demoNow browserReq demoOrigin demoPost browserCtx
    get_default_heuristic_config (by decide) (by decide) (by decide)

/-- C4 (code evaluation at the failing scenario): the request-rate heuristic
of the source is an unimplemented stub, so it returns false for every
identity, tracker and threshold — in particular for an identity that issued
61 requests within 60 seconds — and the classification of the unlabeled
high-rate client stays LIKELY_HUMAN instead of becoming AI_CRAWLER. -/
theorem C4_rate_heuristic_stub :
    (∀ (ip : String) (t : IPRequestTracker) (m : Nat),
        has_high_request_rate ip t m = false) ∧
    has_high_request_rate rateScenarioCtx.ip create_ip_request_tracker
        get_default_heuristic_config.max_requests_per_minute = false ∧
    (classify rateScenarioCtx get_default_heuristic_config).verdict
        = Verdict.LIKELY_HUMAN := by
  refine ⟨fun _ _ _ => rfl, rfl, ?_⟩
  have hsig : is_ai_crawler rateScenarioCtx.user_agent = false := by decide
  simp [classify, hsig, is_ai_crawler_by_heuristics]
  norm_num

/-- C5: the signature matcher returns the first known crawler name whose
token appears as a substring of the user agent (the head of the
order-preserving filter), returns none exactly when no known token appears,
and succeeds exactly when `is_ai_crawler` is true. -/
theorem C5_signature_matcher (ua : String) :
    matchCrawler ua = (AI_CRAWLERS.filter (fun c => strContains ua c)).head? ∧
    (matchCrawler ua).isNone = AI_CRAWLERS.all (fun c => ! strContains ua c) ∧
    (matchCrawler ua).isSome = is_ai_crawler ua :=
  ⟨find_eq_head_filter _ _, find_isNone_eq_all_not _ _, find_isSome_eq_any _ _⟩

/-- C6 (code evaluation at the failing inputs): the header heuristic of the
source is an unimplemented stub, so it reports nothing suspicious for an
empty header set (all required headers absent) or for a degenerate
`accept-language` of `*` (shorter than the configured minimum of 5), and
indeed for every input. -/
theorem C6_header_heuristic_stub :
    "accept" ∈ get_default_heuristic_config.required_headers ∧
    ([] : List (String × String)).lookup "accept" = none ∧
    has_suspicious_headers [] get_default_heuristic_config.required_headers
        = false ∧
    (degenerateHeaders.lookup "accept-language").getD "" = "*" ∧
    ((degenerateHeaders.lookup "accept-language").getD "").length
        < get_default_heuristic_config.min_accept_language_length ∧
    has_suspicious_headers degenerateHeaders
        get_default_heuristic_config.required_headers = false ∧
    (∀ (hs : List (String × String)) (req : List String),
        has_suspicious_headers hs req = false) :=
  ⟨by decide, rfl, rfl, by decide, by decide, rfl, fun _ _ => rfl⟩

/-- C7: a log-delivery failure is fully swallowed (the forwarder always
returns successfully), the handler's result does not depend on the log sink
at all, and every request receives a definitive response: the synthetic 200,
the relayed origin response, or the 502 failure response. -/
theorem C7_sink_isolation (now : String) (req : Request)
    (origin : Except String OriginResponse)
    (post post2 : LogEntry → Except String Nat) :
    (∀ e : LogEntry, forward_log post e = Except.ok ()) ∧
    handle_request now req origin post = handle_request now req origin post2 ∧
    (∃ resp tr, handle_request now req origin post = Except.ok (resp, tr) ∧
      (resp = syntheticResponse ∨
       (∃ r : OriginResponse, origin = Except.ok r ∧
          resp = { statusCode := r.status, headers := r.headers, body := r.body }) ∨
       resp = failResponse)) := by
  refine ⟨fun e => forward_log_ok post e, ?_, ?_⟩
  · rw [handle_request_run, handle_request_run]
  · rw [handle_request_run]
    by_cases h : is_ai_crawler (baseEntry now req).user_agent
    · exact ⟨syntheticResponse, [Event.logAttempt (baseEntry now req)],
        by simp [h], Or.inl rfl⟩
    · cases origin with
      | ok r =>
          exact ⟨{ statusCode := r.status, headers := r.headers, body := r.body },
            [fetchEvent req,
             Event.logAttempt { baseEntry now req with status_code := r.status }],
            by simp [h], Or.inr (Or.inl ⟨r, rfl, rfl⟩)⟩
      | error e =>
          exact ⟨failResponse,
            [fetchEvent req,
             Event.logAttempt { baseEntry now req with status_code := 502 }],
            by simp [h], Or.inr (Or.inr rfl)⟩

/-- C8 (code evaluation): the source's `IPRequestTracker` is an empty stub
holding no state whatsoever — any two trackers are equal, so no sequence of
record calls can make a per-identity count reach N. -/
theorem C8_tracker_stub_stateless (t1 t2 : IPRequestTracker) : t1 = t2 := by
  cases t1
  cases t2
  rfl

/-- C9: signature matching is case-sensitive — `gptbot/1.0` contains the
known token `GPTBot` up to letter case only, yet `is_ai_crawler` returns
false on it and the dispatcher proxies the request to the origin instead of
serving the synthetic AI response. -/
theorem C9_case_sensitivity :
    "GPTBot" ∈ AI_CRAWLERS ∧
    strContains "gptbot/1.0" (String.mk (List.map Char.toLower "GPTBot".data))
        = true ∧
    is_ai_crawler "gptbot/1.0" = false ∧
    handle_request demoNow lowerBotReq (Except.ok demoOrigin) demoPost
      = Except.ok
          ({ statusCode := demoOrigin.status, headers := demoOrigin.headers,
             body := demoOrigin.body },
           [fetchEvent lowerBotReq,
            Event.logAttempt
              { baseEntry demoNow lowerBotReq with status_code := demoOrigin.status }]) ∧
    demoOrigin.body ≠ syntheticResponse.body :=
  ⟨by decide, by decide, by decide, rfl, by decide⟩

/-- C10: starting from a fresh collector, after every sequence of
`record_request` calls the invariant `total_requests = ai_crawler_requests +
proxy_requests` holds, and `error_requests` equals the number of recorded
entries whose status code is at least 400. -/
theorem C10_metrics_invariant (hk : String → String) (start : String)
    (l : List (LogEntry × ℚ)) :
    (runRecords hk (initCollector start) l).metrics.total_requests
        = (runRecords hk (initCollector start) l).metrics.ai_crawler_requests
          + (runRecords hk (initCollector start) l).metrics.proxy_requests ∧
    (runRecords hk (initCollector start) l).metrics.error_requests
        = l.countP (fun p => decide (400 ≤ p.1.status_code)) := by
  constructor
  · rw [runRecords_total hk l (initCollector start),
        runRecords_ai_proxy hk l (initCollector start)]
    simp [initCollector]
  · rw [runRecords_error hk l (initCollector start)]
    simp [initCollector]
